import Mathlib

/-!
Shallow embedding of the GiftHarmony browser API client
(src/src/services/api.ts, class ApiService) and proofs about its
session-token, header-construction, query-building and
response-normalization behaviour.

Modelling conventions:
* JavaScript `string | null` values are `Option String`; `null` is `none`.
* `localStorage` matters only through the single key `auth_token`; the
  value stored under that key (or its absence) is an `Option String`.
* A JSON value is the inductive `Json` below; a response body is the
  result of attempting `JSON.parse` on the raw text, i.e. `Option Json`
  (`none` when the body is empty or not valid JSON).
* JavaScript truthiness is modelled per type: a string is truthy iff it
  is non-empty, a number iff it is non-zero, `null`/`undefined` are
  falsy, objects and arrays are always truthy.
* `fetch` is a caller-supplied transport `Request → Response`; each
  resource method builds its `Request` exactly as the source does and
  feeds the transport's `Response` to `handleResponse`.
* Methods thread the client state explicitly; the source never assigns
  to `this.token` or to storage outside the constructor and `setToken`,
  so the resource methods return the state they were given.
-/

/-- JSON values, as produced by a successful `JSON.parse`.  Numbers are
modelled as integers: every numeric literal this client ever serializes
or inspects is integral.  Object field lists coming from `JSON.parse`
carry distinct keys (on duplicate keys `JSON.parse` keeps the last, so
the parsed object again has distinct keys). -/
inductive Json where
  | null : Json
  | bool : Bool → Json
  | num : Int → Json
  | str : String → Json
  | arr : List Json → Json
  | obj : List (String × Json) → Json

/-- JavaScript truthiness of a JSON value: `null`, `false`, `0` and the
empty string are falsy; every object and array is truthy. -/
def Json.truthy : Json → Bool
  | .null => false
  | .bool b => b
  | .num n => n != 0
  | .str s => s != ""
  | .arr _ => true
  | .obj _ => true

/-- Property access `j.message`-style on a parsed JSON value: yields the
field of an object, and `undefined` (here `none`) on non-objects.
(Access on `null` itself throws in JavaScript; `handleResponse` below
models that path separately.) -/
def Json.getField (j : Json) (key : String) : Option Json :=
  match j with
  | .obj fields => fields.lookup key
  | _ => none

mutual

/-- JavaScript `String(x)` coercion as applied by `new Error(x)` to a
non-string message value. -/
def Json.jsString : Json → String
  | .null => "null"
  | .bool b => if b then "true" else "false"
  | .num n => toString n
  | .str s => s
  | .arr xs => String.intercalate "," (Json.jsStringList xs)
  | .obj _ => "[object Object]"

/-- Elementwise `String(x)` coercion for array joining. -/
def Json.jsStringList : List Json → List String
  | [] => []
  | x :: xs => Json.jsString x :: Json.jsStringList xs

end

/-- An HTTP response as seen through `fetch`: its status code and the
result of attempting to parse its body as JSON (`none` when the body is
empty or not JSON, in which case `response.json()` rejects). -/
structure Response where
  status : Nat
  body : Option Json

/-- `Response.ok` of the Fetch API: status in the range 200–299. -/
def Response.ok (r : Response) : Bool :=
  200 ≤ r.status && r.status < 300

/-- Outcome of one pipeline call.  `success` is the parsed JSON payload
returned as-is; `requestFailed` is the single `throw new Error(message)`
channel of `handleResponse`; `malformedResponse` is an ok-status body
that fails to parse (the `response.json()` rejection propagating);
`typeError` is the JavaScript `TypeError` raised by reading `.message`
off a parsed `null` error body. -/
inductive ApiOutcome where
  | success : Json → ApiOutcome
  | requestFailed : String → ApiOutcome
  | malformedResponse : ApiOutcome
  | typeError : ApiOutcome

/-- The synthesized fallback text HTTP error! status: <status>. -/
def fallbackMessage (status : Nat) : String :=
  "HTTP error! status: " ++ toString status

/-- `error.message || fallback` followed by `new Error(...)`: take the
`message` field when it is truthy, otherwise the fallback string. -/
def errMessage (err : Json) (status : Nat) : String :=
  match err.getField "message" with
  | some m => if m.truthy then m.jsString else fallbackMessage status
  | none => fallbackMessage status

/-- `ApiService.handleResponse` (api.ts lines 25–37).  On a non-ok
status: `response.json()` is attempted; a rejected parse is replaced by
`\x7b message: fallback \x7d` via `.catch`; then
`new Error(error.message || fallback)` is thrown.  On an ok status the
parsed body is returned as-is. -/
def handleResponse (r : Response) : ApiOutcome :=
  if r.ok then
    match r.body with
    | some j => .success j
    | none => .malformedResponse
  else
    match r.body with
    | some Json.null => .typeError
    | some j => .requestFailed (errMessage j r.status)
    | none =>
        .requestFailed
          (errMessage (Json.obj [("message", Json.str (fallbackMessage r.status))]) r.status)

/-- The mutable state of one `ApiService` instance together with the
one persistent-storage key it touches: `baseURL` and `token` are the
instance fields, `storage` is the value held under `auth_token` in
`localStorage`. -/
structure ClientState where
  baseURL : String
  token : Option String
  storage : Option String

/-- JavaScript truthiness of a `string | null` value: truthy iff
non-null and non-empty. -/
def strTruthy : Option String → Bool
  | some s => s != ""
  | none => false

/-- The literal fallback base URL of api.ts line 1. -/
def defaultBaseURL : String := "http://localhost:5000/api"

/-- The `ApiService` constructor (api.ts lines 7–11): resolve the base
URL from the environment value with `||` (falsy, i.e. unset or empty,
falls back to the local default) and read the token from storage. -/
def construct (envUrl : Option String) (storage : Option String) : ClientState :=
  { baseURL := if strTruthy envUrl then envUrl.getD "" else defaultBaseURL
    token := storage
    storage := storage }

/-- `ApiService.setToken` (api.ts lines 39–46): the in-memory field
always receives the argument; storage is written only when the argument
is truthy and erased otherwise. -/
def setToken (st : ClientState) (token : Option String) : ClientState :=
  { st with
    token := token
    storage := if strTruthy token then token else none }

/-- `ApiService.getHeaders` (api.ts lines 13–23): always
`Content-Type: application/json`, plus `Authorization: Bearer <token>`
when the held token is truthy. -/
def getHeaders (st : ClientState) : List (String × String) :=
  let headers : List (String × String) := [("Content-Type", "application/json")]
  if strTruthy st.token then
    headers ++ [("Authorization", "Bearer " ++ st.token.getD "")]
  else
    headers

/-- A request as handed to `fetch`: method, full URL, header list, and
the JavaScript object serialized into the body (`none` when no body is
sent). -/
structure Request where
  method : String
  url : String
  headers : List (String × String)
  body : Option Json

/-- The shared tail of every resource method: issue the transport call
and normalize the response.  Nothing in this path assigns to the token
field or to storage, so the state passes through unchanged. -/
def runRequest (st : ClientState) (transport : Request → Response) (req : Request) :
    ApiOutcome × ClientState :=
  (handleResponse (transport req), st)

/-- The user data accepted by `register`; `phone` is optional and, when
absent, `JSON.stringify` omits the key. -/
structure RegisterData where
  email : String
  password : String
  first_name : String
  last_name : String
  phone : Option String

/-- `JSON.stringify` of the `register` payload. -/
def RegisterData.toJson (d : RegisterData) : Json :=
  Json.obj
    ([("email", Json.str d.email), ("password", Json.str d.password),
      ("first_name", Json.str d.first_name), ("last_name", Json.str d.last_name)] ++
      (match d.phone with
       | some p => [("phone", Json.str p)]
       | none => []))

/-- `ApiService.register` (POST /auth/register). -/
def register (st : ClientState) (transport : Request → Response) (userData : RegisterData) :
    ApiOutcome × ClientState :=
  runRequest st transport
    { method := "POST", url := st.baseURL ++ "/auth/register",
      headers := getHeaders st, body := some userData.toJson }

/-- `JSON.stringify` of the `login` payload. -/
def loginBody (email password : String) : Json :=
  Json.obj [("email", Json.str email), ("password", Json.str password)]

/-- `ApiService.login` (POST /auth/login). -/
def login (st : ClientState) (transport : Request → Response) (email password : String) :
    ApiOutcome × ClientState :=
  runRequest st transport
    { method := "POST", url := st.baseURL ++ "/auth/login",
      headers := getHeaders st, body := some (loginBody email password) }

/-- `ApiService.getCurrentUser` (GET /auth/me). -/
def getCurrentUser (st : ClientState) (transport : Request → Response) :
    ApiOutcome × ClientState :=
  runRequest st transport
    { method := "GET", url := st.baseURL ++ "/auth/me",
      headers := getHeaders st, body := none }

/-- The optional filter object of `getProducts`; a missing property is
`none` and behaves exactly like an absent key. -/
structure ProductsParams where
  category : Option String
  search : Option String
  page : Option Int
  limit : Option Int

/-- JavaScript truthiness of a `number | undefined` value: truthy iff
present and non-zero. -/
def intTruthy : Option Int → Bool
  | some n => n != 0
  | none => false

/-- The `URLSearchParams` entry list built by `getProducts`
(api.ts lines 93–97): each filter is appended, in source order, only
when its value is truthy; numbers are serialized with `toString()`. -/
def getProductsQuery (params : Option ProductsParams) : List (String × String) :=
  let cat := params.bind (·.category)
  let sea := params.bind (·.search)
  let pag := params.bind (·.page)
  let lim := params.bind (·.limit)
  (if strTruthy cat then [("category", cat.getD "")] else []) ++
    (if strTruthy sea then [("search", sea.getD "")] else []) ++
    (if intTruthy pag then [("page", toString (pag.getD 0))] else []) ++
    (if intTruthy lim then [("limit", toString (lim.getD 0))] else [])

/-- `URLSearchParams.toString()` on the entry list.  (Percent-encoding
is the identity on every character this client ever puts in a query.) -/
def queryToString (q : List (String × String)) : String :=
  String.intercalate "&" (q.map (fun kv => kv.1 ++ "=" ++ kv.2))

/-- The request built by `ApiService.getProducts` (GET /products). -/
def getProductsRequest (st : ClientState) (params : Option ProductsParams) : Request :=
  { method := "GET",
    url := st.baseURL ++ "/products?" ++ queryToString (getProductsQuery params),
    headers := getHeaders st, body := none }

/-- `ApiService.getProducts` (api.ts lines 87–106). -/
def getProducts (st : ClientState) (transport : Request → Response)
    (params : Option ProductsParams) : ApiOutcome × ClientState :=
  runRequest st transport (getProductsRequest st params)

/-- The request built by `ApiService.getProduct` (GET /products/:id). -/
def getProductRequest (st : ClientState) (id : Int) : Request :=
  { method := "GET", url := st.baseURL ++ "/products/" ++ toString id,
    headers := getHeaders st, body := none }

/-- `ApiService.getProduct` (api.ts lines 108–115). -/
def getProduct (st : ClientState) (transport : Request → Response) (id : Int) :
    ApiOutcome × ClientState :=
  runRequest st transport (getProductRequest st id)

/-- `ApiService.getCart` (GET /cart). -/
def getCart (st : ClientState) (transport : Request → Response) :
    ApiOutcome × ClientState :=
  runRequest st transport
    { method := "GET", url := st.baseURL ++ "/cart",
      headers := getHeaders st, body := none }

/-- The request built by `ApiService.addToCart` (POST /cart).  The
`quantity` parameter carries a default: an omitted argument (`none`)
means the declared default `1` (api.ts line 127). -/
def addToCartRequest (st : ClientState) (productId : Int) (quantity : Option Int) : Request :=
  { method := "POST", url := st.baseURL ++ "/cart", headers := getHeaders st,
    body := some (Json.obj
      [("product_id", Json.num productId), ("quantity", Json.num (quantity.getD 1))]) }

/-- `ApiService.addToCart` (api.ts lines 127–136). -/
def addToCart (st : ClientState) (transport : Request → Response)
    (productId : Int) (quantity : Option Int) : ApiOutcome × ClientState :=
  runRequest st transport (addToCartRequest st productId quantity)

/-- `ApiService.updateCartItem` (PUT /cart/:id). -/
def updateCartItem (st : ClientState) (transport : Request → Response)
    (id quantity : Int) : ApiOutcome × ClientState :=
  runRequest st transport
    { method := "PUT", url := st.baseURL ++ "/cart/" ++ toString id,
      headers := getHeaders st,
      body := some (Json.obj [("quantity", Json.num quantity)]) }

/-- `ApiService.removeFromCart` (DELETE /cart/:id). -/
def removeFromCart (st : ClientState) (transport : Request → Response) (id : Int) :
    ApiOutcome × ClientState :=
  runRequest st transport
    { method := "DELETE", url := st.baseURL ++ "/cart/" ++ toString id,
      headers := getHeaders st, body := none }

/-- `ApiService.clearCart` (DELETE /cart). -/
def clearCart (st : ClientState) (transport : Request → Response) :
    ApiOutcome × ClientState :=
  runRequest st transport
    { method := "DELETE", url := st.baseURL ++ "/cart",
      headers := getHeaders st, body := none }

/-- `ApiService.getWishlist` (GET /wishlist). -/
def getWishlist (st : ClientState) (transport : Request → Response) :
    ApiOutcome × ClientState :=
  runRequest st transport
    { method := "GET", url := st.baseURL ++ "/wishlist",
      headers := getHeaders st, body := none }

/-- `ApiService.addToWishlist` (POST /wishlist). -/
def addToWishlist (st : ClientState) (transport : Request → Response) (productId : Int) :
    ApiOutcome × ClientState :=
  runRequest st transport
    { method := "POST", url := st.baseURL ++ "/wishlist",
      headers := getHeaders st,
      body := some (Json.obj [("product_id", Json.num productId)]) }

/-- `ApiService.removeFromWishlistByProduct` (DELETE /wishlist/product/:productId). -/
def removeFromWishlistByProduct (st : ClientState) (transport : Request → Response)
    (productId : Int) : ApiOutcome × ClientState :=
  runRequest st transport
    { method := "DELETE", url := st.baseURL ++ "/wishlist/product/" ++ toString productId,
      headers := getHeaders st, body := none }

/-- `ApiService.getOrders` (GET /orders). -/
def getOrders (st : ClientState) (transport : Request → Response) :
    ApiOutcome × ClientState :=
  runRequest st transport
    { method := "GET", url := st.baseURL ++ "/orders",
      headers := getHeaders st, body := none }

/-- One line item of `createOrder`. -/
structure OrderItem where
  product_id : Int
  quantity : Int

/-- The order payload of `createOrder`. -/
structure OrderData where
  items : List OrderItem
  shipping_address : String

/-- `JSON.stringify` of the `createOrder` payload. -/
def OrderData.toJson (d : OrderData) : Json :=
  Json.obj
    [("items", Json.arr (d.items.map (fun i =>
        Json.obj [("product_id", Json.num i.product_id), ("quantity", Json.num i.quantity)]))),
     ("shipping_address", Json.str d.shipping_address)]

/-- `ApiService.createOrder` (POST /orders). -/
def createOrder (st : ClientState) (transport : Request → Response) (orderData : OrderData) :
    ApiOutcome × ClientState :=
  runRequest st transport
    { method := "POST", url := st.baseURL ++ "/orders",
      headers := getHeaders st, body := some orderData.toJson }

/-- The argument of the most recent call in a call sequence, or the
given initial value when the sequence is empty. -/
def lastArg : List (Option String) → Option String → Option String
  | [], init => init
  | t :: ts, _ => lastArg ts t

/-- A concrete 404 response carrying the served message Not found. -/
def notFoundResponse : Response :=
  { status := 404, body := some (Json.obj [("message", Json.str "Not found")]) }

/-- A concrete 200 response whose JSON payload holds id 1 and name Mug. -/
def mugResponse : Response :=
  { status := 200, body := some (Json.obj [("id", Json.num 1), ("name", Json.str "Mug")]) }

/-- A concrete 500 response whose body fails to parse. -/
def unparseable500 : Response := { status := 500, body := none }

/-! ### General lemmas about the embedded client -/

/-- The in-memory token after a sequence of `setToken` calls is the
argument of the most recent call, or the initial token when no call was
made. -/
theorem token_after_foldl (calls : List (Option String)) (st : ClientState) :
    (calls.foldl setToken st).token = lastArg calls st.token := by
  induction calls generalizing st with
  | nil => rfl
  | cons t ts ih => simpa [List.foldl, lastArg] using ih (setToken st t)

/-- Left cancellation for the Bearer prefix. -/
theorem bearer_cancel (t s : String) (h : "Bearer " ++ t = "Bearer " ++ s) : t = s := by
  have hd := congrArg String.data h
  simp only [String.data_append] at hd
  exact String.ext (List.append_cancel_left hd)

/-- The Authorization header produced by `getHeaders` characterized:
it carries Bearer t exactly when the held token is the non-empty
string t. -/
theorem mem_getHeaders_auth (st : ClientState) (t : String) :
    (("Authorization", "Bearer " ++ t) ∈ getHeaders st) ↔ (st.token = some t ∧ t ≠ "") := by
  cases h : st.token with
  | none => simp [getHeaders, h, strTruthy]
  | some s =>
    by_cases hs : s = ""
    · subst hs
      simp [getHeaders, h, strTruthy]
      exact fun ht => ht.symm
    · simp [getHeaders, h, strTruthy, hs]
      constructor
      · intro hb
        have hts := bearer_cancel t s hb
        exact ⟨hts.symm, hts ▸ hs⟩
      · rintro ⟨h1, _⟩
        rw [h1]

/-- Every header set built by `getHeaders` carries the JSON
content type. -/
theorem contentType_mem (st : ClientState) :
    ("Content-Type", "application/json") ∈ getHeaders st := by
  unfold getHeaders
  by_cases h : strTruthy st.token = true <;> simp [h]

/-- The synthesized fallback message is never the empty string. -/
theorem fallback_ne_empty (s : Nat) : fallbackMessage s ≠ "" := by
  intro h
  have := congrArg String.data h
  simp [fallbackMessage, String.data_append] at this

/-- A non-ok response whose body fails to parse is normalized to the
fallback message: the catch handler substitutes the object with the
fallback under message, and that field is truthy. -/
theorem unparseable_fallback (r : Response) (h1 : r.ok = false) (h2 : r.body = none) :
    handleResponse r = ApiOutcome.requestFailed (fallbackMessage r.status) := by
  have hne := fallback_ne_empty r.status
  simp [handleResponse, h1, h2, errMessage, Json.getField, List.lookup, Json.truthy,
    Json.jsString, bne_iff_ne, hne]

/-! ### Claims -/

/-- C1 (as stated, refuted): construct a client over empty storage and
call setToken with the empty string.  The most recent `setToken` call
passed a non-null argument, yet the built header set is exactly the
Content-Type singleton: no Authorization header (with value Bearer
followed by the empty token, or any other) is included, contradicting
the claimed iff. -/
theorem c1_counterexample :
    lastArg [some ""] none = some "" ∧
    getHeaders (List.foldl setToken (construct none none) [some ""]) =
      [("Content-Type", "application/json")] ∧
    (getHeaders (List.foldl setToken (construct none none) [some ""])).contains
      ("Authorization", "Bearer ") = false := by
  refine ⟨rfl, rfl, ?_⟩
  decide

/-- C1 (amended): after any sequence of `setToken` calls on a client
constructed over any initial storage, the headers always contain
Content-Type: application/json, and contain Authorization: Bearer t
exactly when the most recent `setToken` call passed the truthy
(non-null, non-empty) string t — or, absent any call, exactly when
storage held the non-empty token t at construction. -/
theorem c1_auth_header_iff_truthy_last_token (storage : Option String)
    (calls : List (Option String)) (t : String) :
    (("Content-Type", "application/json") ∈
      getHeaders (List.foldl setToken (construct none storage) calls)) ∧
    ((("Authorization", "Bearer " ++ t) ∈
        getHeaders (List.foldl setToken (construct none storage) calls)) ↔
      (lastArg calls storage = some t ∧ t ≠ "")) := by
  have htok : (List.foldl setToken (construct none storage) calls).token =
      lastArg calls storage := by
    rw [token_after_foldl]
    rfl
  exact ⟨contentType_mem _, by rw [mem_getHeaders_auth, htok]⟩

/-- C2 (as stated, refuted): a status-500 response whose body parses
fine as the JSON object with no fields still produces the fallback
message, so the thrown message being the fallback does not imply the
body failed to parse. -/
theorem c2_counterexample :
    handleResponse { status := 500, body := some (Json.obj []) } =
      ApiOutcome.requestFailed "HTTP error! status: 500" ∧
    ({ status := 500, body := some (Json.obj []) } : Response).body.isSome = true :=
  ⟨rfl, rfl⟩

/-- C2 (amended): for every non-ok response, if the body fails to parse
as JSON the thrown message is the fallback HTTP error! status:
<status code>; in particular a transport answering any request with
status 500 and an unparseable body makes the call throw exactly
HTTP error! status: 500. -/
theorem c2_unparseable_body_gives_fallback :
    (∀ r : Response, r.ok = false → r.body = none →
      handleResponse r = ApiOutcome.requestFailed (fallbackMessage r.status)) ∧
    (∀ (st : ClientState) (tr : Request → Response) (req : Request),
      tr req = { status := 500, body := none } →
      (runRequest st tr req).1 = ApiOutcome.requestFailed "HTTP error! status: 500") := by
  constructor
  · exact unparseable_fallback
  · intro st tr req h
    simp only [runRequest, h]
    exact unparseable_fallback { status := 500, body := none } rfl rfl

/-- C2 witness: both parts at concrete inputs — a concrete non-ok
unparseable response, and a concrete client and transport answering
status 500 with an unparseable body. -/
theorem c2_unparseable_body_gives_fallback_witness :
    handleResponse unparseable500 = ApiOutcome.requestFailed (fallbackMessage 500) ∧
    (runRequest (construct none none) (fun _ => unparseable500)
      (getProductRequest (construct none none) 7)).1 =
      ApiOutcome.requestFailed "HTTP error! status: 500" :=
  ⟨c2_unparseable_body_gives_fallback.1 unparseable500 rfl rfl,
   c2_unparseable_body_gives_fallback.2 (construct none none) (fun _ => unparseable500)
     (getProductRequest (construct none none) 7) rfl⟩

/-- C3 (as stated, refuted): calling setToken with the empty string —
a non-null argument — leaves the storage key erased (isSome is false),
not written with the empty string as the claim demands. -/
theorem c3_counterexample :
    (setToken (construct none none) (some "")).storage = none ∧
    (setToken (construct none none) (some "")).storage.isSome = false ∧
    (setToken (construct none none) (some "")).token = some "" :=
  ⟨rfl, rfl, rfl⟩

/-- C3 (amended): setToken with a non-null, non-empty t writes t to
storage and holds t in memory (a non-null empty string is still held in
memory but erases the storage key); setToken with null erases the
storage key and clears the in-memory token, and a client constructed
over the resulting storage starts unauthenticated. -/
theorem c3_set_token_storage_sync (st : ClientState) (t : String) :
    (t ≠ "" → (setToken st (some t)).storage = some t) ∧
    (setToken st (some t)).token = some t ∧
    (setToken st none).storage = none ∧
    (setToken st none).token = none ∧
    (construct none (setToken st none).storage).token = none := by
  refine ⟨?_, rfl, rfl, rfl, rfl⟩
  intro h
  simp [setToken, strTruthy, bne_iff_ne, h]

/-- C3 witness: the amended theorem at a concrete state and the
concrete non-empty token string tok. -/
theorem c3_set_token_storage_sync_witness :
    (setToken (construct none none) (some "tok")).storage = some "tok" ∧
    (setToken (construct none none) (some "tok")).token = some "tok" ∧
    (setToken (construct none none) none).storage = none ∧
    (setToken (construct none none) none).token = none ∧
    (construct none (setToken (construct none none) none).storage).token = none :=
  have h := c3_set_token_storage_sync (construct none none) "tok"
  ⟨h.1 (by decide), h.2.1, h.2.2.1, h.2.2.2.1, h.2.2.2.2⟩

/-- C4: the query built for page 2 and limit 10 is exactly the two
entries page=2 and limit=10 in that order, with no category or search
entry, and serializes to page=2&limit=10; the query for an empty filter
object, and for an absent one, is empty. -/
theorem c4_products_query_exact :
    getProductsQuery
        (some { category := none, search := none, page := some 2, limit := some 10 }) =
      [("page", "2"), ("limit", "10")] ∧
    queryToString (getProductsQuery
        (some { category := none, search := none, page := some 2, limit := some 10 })) =
      "page=2&limit=10" ∧
    getProductsQuery
        (some { category := none, search := none, page := none, limit := none }) = [] ∧
    getProductsQuery none = [] ∧
    queryToString (getProductsQuery none) = "" :=
  ⟨by decide, by decide, rfl, rfl, rfl⟩

/-- C5 (as stated, refuted): a 404 response whose JSON body carries the
message field holding the empty string — a served message — is thrown
with the synthesized fallback text (a non-empty string, so not the
served message). -/
theorem c5_counterexample :
    handleResponse { status := 404, body := some (Json.obj [("message", Json.str "")]) } =
      ApiOutcome.requestFailed "HTTP error! status: 404" ∧
    "HTTP error! status: 404".isEmpty = false :=
  ⟨rfl, rfl⟩

/-- C5 (amended): for every non-ok response whose body is a JSON object
carrying a non-empty string message field, the call throws exactly that
server-supplied message; in particular a transport answering the
getProduct 999 request with status 404 and body message Not found makes
getProduct 999 throw exactly Not found. -/
theorem c5_server_message_propagates :
    (∀ (r : Response) (fields : List (String × Json)) (m : String),
      r.ok = false → r.body = some (Json.obj fields) →
      fields.lookup "message" = some (Json.str m) → m ≠ "" →
      handleResponse r = ApiOutcome.requestFailed m) ∧
    (∀ (st : ClientState) (tr : Request → Response),
      tr (getProductRequest st 999) = notFoundResponse →
      (getProduct st tr 999).1 = ApiOutcome.requestFailed "Not found") := by
  constructor
  · intro r fields m h1 h2 h3 h4
    simp [handleResponse, h1, h2, errMessage, Json.getField, h3, Json.truthy,
      Json.jsString, bne_iff_ne, h4]
  · intro st tr h
    simp only [getProduct, runRequest, h]
    rfl

/-- C5 witness: both parts at concrete inputs — a concrete 404 response
carrying message Not found, and a concrete client and transport serving
that response to the getProduct 999 request. -/
theorem c5_server_message_propagates_witness :
    handleResponse notFoundResponse = ApiOutcome.requestFailed "Not found" ∧
    (getProduct (construct none none) (fun _ => notFoundResponse) 999).1 =
      ApiOutcome.requestFailed "Not found" :=
  ⟨c5_server_message_propagates.1 notFoundResponse
      [("message", Json.str "Not found")] "Not found" rfl rfl rfl (by decide),
   c5_server_message_propagates.2 (construct none none) (fun _ => notFoundResponse) rfl⟩

/-- C6: every ok-status response whose body parses is returned to the
caller as that parsed value, untransformed; in particular a transport
answering the getProduct 1 request with status 200 and body holding id 1
and name Mug resolves getProduct 1 to exactly that object. -/
theorem c6_ok_body_returned_as_is :
    (∀ (r : Response) (j : Json), r.ok = true → r.body = some j →
      handleResponse r = ApiOutcome.success j) ∧
    (∀ (st : ClientState) (tr : Request → Response),
      tr (getProductRequest st 1) = mugResponse →
      (getProduct st tr 1).1 =
        ApiOutcome.success (Json.obj [("id", Json.num 1), ("name", Json.str "Mug")])) := by
  constructor
  · intro r j h1 h2
    simp [handleResponse, h1, h2]
  · intro st tr h
    simp only [getProduct, runRequest, h]
    rfl

/-- C6 witness: both parts at concrete inputs — a concrete 200 response
with the Mug payload, and a concrete client and transport serving it to
the getProduct 1 request. -/
theorem c6_ok_body_returned_as_is_witness :
    handleResponse mugResponse =
      ApiOutcome.success (Json.obj [("id", Json.num 1), ("name", Json.str "Mug")]) ∧
    (getProduct (construct none none) (fun _ => mugResponse) 1).1 =
      ApiOutcome.success (Json.obj [("id", Json.num 1), ("name", Json.str "Mug")]) :=
  ⟨c6_ok_body_returned_as_is.1 mugResponse
      (Json.obj [("id", Json.num 1), ("name", Json.str "Mug")]) rfl rfl,
   c6_ok_body_returned_as_is.2 (construct none none) (fun _ => mugResponse) rfl⟩

/-- C7: for every state and product id p, addToCart with the quantity
argument omitted sends the body object with product_id p and quantity 1;
in particular addToCart 5 sends product_id 5, quantity 1. -/
theorem c7_add_to_cart_default_quantity (st : ClientState) (p : Int) :
    (addToCartRequest st p none).body =
      some (Json.obj [("product_id", Json.num p), ("quantity", Json.num 1)]) ∧
    (addToCartRequest st 5 none).body =
      some (Json.obj [("product_id", Json.num 5), ("quantity", Json.num 1)]) :=
  ⟨rfl, rfl⟩

/-- C8: after setToken with the empty string, the storage key is erased
rather than written, the in-memory token field holds the empty string,
and the built header set is exactly the Content-Type singleton — no
Authorization header. -/
theorem c8_empty_token_like_null (st : ClientState) :
    (setToken st (some "")).storage = none ∧
    (setToken st (some "")).token = some "" ∧
    getHeaders (setToken st (some "")) = [("Content-Type", "application/json")] :=
  ⟨rfl, rfl, rfl⟩

/-- C9: every falsy filter value is omitted from the products query:
page 0, limit 0, empty category and empty search each produce no
entry at all. -/
theorem c9_falsy_params_omitted :
    getProductsQuery
        (some { category := none, search := none, page := some 0, limit := none }) = [] ∧
    getProductsQuery
        (some { category := none, search := none, page := none, limit := some 0 }) = [] ∧
    getProductsQuery
        (some { category := some "", search := none, page := none, limit := none }) = [] ∧
    getProductsQuery
        (some { category := none, search := some "", page := none, limit := none }) = [] :=
  ⟨rfl, rfl, rfl, rfl⟩

/-- C10: no resource method mutates the client's token state: for every
state, transport and argument list, each of the fifteen resource
methods returns the state it was given — setToken and the constructor
are the only writers. -/
theorem c10_frame_token_state (st : ClientState) (tr : Request → Response)
    (d : RegisterData) (e pw : String) (params : Option ProductsParams)
    (i q pid : Int) (qt : Option Int) (od : OrderData) :
    (register st tr d).2 = st ∧ (login st tr e pw).2 = st ∧
    (getCurrentUser st tr).2 = st ∧ (getProducts st tr params).2 = st ∧
    (getProduct st tr i).2 = st ∧ (getCart st tr).2 = st ∧
    (addToCart st tr pid qt).2 = st ∧ (updateCartItem st tr i q).2 = st ∧
    (removeFromCart st tr i).2 = st ∧ (clearCart st tr).2 = st ∧
    (getWishlist st tr).2 = st ∧ (addToWishlist st tr pid).2 = st ∧
    (removeFromWishlistByProduct st tr pid).2 = st ∧ (getOrders st tr).2 = st ∧
    (createOrder st tr od).2 = st :=
  ⟨rfl, rfl, rfl, rfl, rfl, rfl, rfl, rfl, rfl, rfl, rfl, rfl, rfl, rfl, rfl⟩
